import Mathlib

/-!
Verification development for the rust-esp32cam firmware core: the camera
frame-buffer lifecycle / format-conversion subsystem (src/camera.rs) and the
wireless link supervision routines (src/wifi.rs), shallowly embedded in Lean.
Driver primitives (esp_camera_fb_get, frame2jpg, frame2bmp, the wifi stack)
are modelled as parameters; the control flow of the Rust functions is
translated structurally, and each capture call additionally records the trace
of driver-visible events it performs, in order.
-/

namespace Esp32Cam

/-! ## Native integer codes (esp32-camera bindgen constants)

The enum values of pixformat_t, framesize_t, camera_fb_location_t and
camera_grab_mode_t are plain C enums numbered from 0 in declaration order. -/

def pixformat_t_PIXFORMAT_RGB565 : Nat := 0
def pixformat_t_PIXFORMAT_YUV422 : Nat := 1
def pixformat_t_PIXFORMAT_YUV420 : Nat := 2
def pixformat_t_PIXFORMAT_GRAYSCALE : Nat := 3
def pixformat_t_PIXFORMAT_JPEG : Nat := 4
def pixformat_t_PIXFORMAT_RGB888 : Nat := 5
def pixformat_t_PIXFORMAT_RAW : Nat := 6
def pixformat_t_PIXFORMAT_RGB444 : Nat := 7
def pixformat_t_PIXFORMAT_RGB555 : Nat := 8

def framesize_t_FRAMESIZE_96X96 : Nat := 0
def framesize_t_FRAMESIZE_QQVGA : Nat := 1
def framesize_t_FRAMESIZE_QCIF : Nat := 2
def framesize_t_FRAMESIZE_HQVGA : Nat := 3
def framesize_t_FRAMESIZE_240X240 : Nat := 4
def framesize_t_FRAMESIZE_QVGA : Nat := 5
def framesize_t_FRAMESIZE_CIF : Nat := 6
def framesize_t_FRAMESIZE_HVGA : Nat := 7
def framesize_t_FRAMESIZE_VGA : Nat := 8
def framesize_t_FRAMESIZE_SVGA : Nat := 9
def framesize_t_FRAMESIZE_XGA : Nat := 10
def framesize_t_FRAMESIZE_HD : Nat := 11
def framesize_t_FRAMESIZE_SXGA : Nat := 12
def framesize_t_FRAMESIZE_UXGA : Nat := 13
def framesize_t_FRAMESIZE_FHD : Nat := 14
def framesize_t_FRAMESIZE_P_HD : Nat := 15
def framesize_t_FRAMESIZE_P_3MP : Nat := 16
def framesize_t_FRAMESIZE_QXGA : Nat := 17
def framesize_t_FRAMESIZE_QHD : Nat := 18
def framesize_t_FRAMESIZE_WQXGA : Nat := 19
def framesize_t_FRAMESIZE_P_FHD : Nat := 20
def framesize_t_FRAMESIZE_QSXGA : Nat := 21
def framesize_t_FRAMESIZE_INVALID : Nat := 22

def camera_fb_location_t_CAMERA_FB_IN_PSRAM : Nat := 0
def camera_fb_location_t_CAMERA_FB_IN_DRAM : Nat := 1

def camera_grab_mode_t_CAMERA_GRAB_WHEN_EMPTY : Nat := 0
def camera_grab_mode_t_CAMERA_GRAB_LATEST : Nat := 1

/-! ## Enumerated configuration types (src/camera.rs lines 191-385) -/

inductive PixelFormat where
  | RGB565 | YUV422 | YUV420 | GRAYSCALE | JPEG | RGB888 | RAW | RGB444 | RGB555
deriving DecidableEq, Repr, Fintype

/-- Embeds `impl From<PixelFormat> for u32` (camera.rs 205-219). -/
def PixelFormat.toU32 : PixelFormat → Nat
  | .RGB565 => pixformat_t_PIXFORMAT_RGB565
  | .YUV422 => pixformat_t_PIXFORMAT_YUV422
  | .YUV420 => pixformat_t_PIXFORMAT_YUV420
  | .GRAYSCALE => pixformat_t_PIXFORMAT_GRAYSCALE
  | .JPEG => pixformat_t_PIXFORMAT_JPEG
  | .RGB888 => pixformat_t_PIXFORMAT_RGB888
  | .RAW => pixformat_t_PIXFORMAT_RAW
  | .RGB444 => pixformat_t_PIXFORMAT_RGB444
  | .RGB555 => pixformat_t_PIXFORMAT_RGB555

/-- Embeds `impl TryFrom<u32> for PixelFormat` (camera.rs 221-238): the match
on the native codes, with the catch-all arm returning the typed error. -/
def PixelFormat.tryFromU32 : Nat → Except String PixelFormat
  | 0 => Except.ok .RGB565
  | 1 => Except.ok .YUV422
  | 2 => Except.ok .YUV420
  | 3 => Except.ok .GRAYSCALE
  | 4 => Except.ok .JPEG
  | 5 => Except.ok .RGB888
  | 6 => Except.ok .RAW
  | 7 => Except.ok .RGB444
  | 8 => Except.ok .RGB555
  | _ => Except.error "Unable to convert to pixel format"

inductive FrameSize where
  | S96X96 | QQVGA | QCIF | HQVGA | S240X240 | QVGA | CIF | HVGA | VGA | SVGA
  | XGA | HD | SXGA | UXGA | FHD | P_HD | P_3MP | QXGA | QHD | WQXGA | P_FHD
  | QSXGA | INVALID
deriving DecidableEq, Repr, Fintype

/-- Embeds `impl From<FrameSize> for u32` (camera.rs 268-296). -/
def FrameSize.toU32 : FrameSize → Nat
  | .S96X96 => framesize_t_FRAMESIZE_96X96
  | .QQVGA => framesize_t_FRAMESIZE_QQVGA
  | .QCIF => framesize_t_FRAMESIZE_QCIF
  | .HQVGA => framesize_t_FRAMESIZE_HQVGA
  | .S240X240 => framesize_t_FRAMESIZE_240X240
  | .QVGA => framesize_t_FRAMESIZE_QVGA
  | .CIF => framesize_t_FRAMESIZE_CIF
  | .HVGA => framesize_t_FRAMESIZE_HVGA
  | .VGA => framesize_t_FRAMESIZE_VGA
  | .SVGA => framesize_t_FRAMESIZE_SVGA
  | .XGA => framesize_t_FRAMESIZE_XGA
  | .HD => framesize_t_FRAMESIZE_HD
  | .SXGA => framesize_t_FRAMESIZE_SXGA
  | .UXGA => framesize_t_FRAMESIZE_UXGA
  | .FHD => framesize_t_FRAMESIZE_FHD
  | .P_HD => framesize_t_FRAMESIZE_P_HD
  | .P_3MP => framesize_t_FRAMESIZE_P_3MP
  | .QXGA => framesize_t_FRAMESIZE_QXGA
  | .QHD => framesize_t_FRAMESIZE_QHD
  | .WQXGA => framesize_t_FRAMESIZE_WQXGA
  | .P_FHD => framesize_t_FRAMESIZE_P_FHD
  | .QSXGA => framesize_t_FRAMESIZE_QSXGA
  | .INVALID => framesize_t_FRAMESIZE_INVALID

/-- Embeds `impl TryFrom<u32> for FrameSize` (camera.rs 298-329). -/
def FrameSize.tryFromU32 : Nat → Except String FrameSize
  | 0 => Except.ok .S96X96
  | 1 => Except.ok .QQVGA
  | 2 => Except.ok .QCIF
  | 3 => Except.ok .HQVGA
  | 4 => Except.ok .S240X240
  | 5 => Except.ok .QVGA
  | 6 => Except.ok .CIF
  | 7 => Except.ok .HVGA
  | 8 => Except.ok .VGA
  | 9 => Except.ok .SVGA
  | 10 => Except.ok .XGA
  | 11 => Except.ok .HD
  | 12 => Except.ok .SXGA
  | 13 => Except.ok .UXGA
  | 14 => Except.ok .FHD
  | 15 => Except.ok .P_HD
  | 16 => Except.ok .P_3MP
  | 17 => Except.ok .QXGA
  | 18 => Except.ok .QHD
  | 19 => Except.ok .WQXGA
  | 20 => Except.ok .P_FHD
  | 21 => Except.ok .QSXGA
  | 22 => Except.ok .INVALID
  | _ => Except.error "Unable to convert to frame size"

inductive FbLocation where
  | DRAM | PSRAM
deriving DecidableEq, Repr

/-- Embeds `impl From<FbLocation> for u32` (camera.rs 338-345). -/
def FbLocation.toU32 : FbLocation → Nat
  | .DRAM => camera_fb_location_t_CAMERA_FB_IN_DRAM
  | .PSRAM => camera_fb_location_t_CAMERA_FB_IN_PSRAM

/-- Embeds `impl TryFrom<u32> for FbLocation` (camera.rs 347-357). -/
def FbLocation.tryFromU32 : Nat → Except String FbLocation
  | 1 => Except.ok .DRAM
  | 0 => Except.ok .PSRAM
  | _ => Except.error "Unable to convert to fb location"

inductive FbGrabMode where
  | WhenEmpty | Latest
deriving DecidableEq, Repr, Fintype

/-- Embeds `impl From<FbGrabMode> for u32` (camera.rs 366-373). -/
def FbGrabMode.toU32 : FbGrabMode → Nat
  | .WhenEmpty => camera_grab_mode_t_CAMERA_GRAB_WHEN_EMPTY
  | .Latest => camera_grab_mode_t_CAMERA_GRAB_LATEST

/-- Embeds `impl TryFrom<u32> for FbGrabMode` (camera.rs 375-385). -/
def FbGrabMode.tryFromU32 : Nat → Except String FbGrabMode
  | 0 => Except.ok .WhenEmpty
  | 1 => Except.ok .Latest
  | _ => Except.error "Unable to convert to grab mode"

/-- Embeds `CameraConfig` (camera.rs 20-30); `xclk_freq` in Hz as a Nat,
`jpeg_quality` the driver-level quality field. -/
structure CameraConfig where
  xclk_freq : Nat
  pixel_format : PixelFormat
  frame_size : FrameSize
  jpeg_quality : Int
  fb_count : Nat
  fb_location : FbLocation
  grab_mode : FbGrabMode
  sccb_i2c_port : Option Int
deriving DecidableEq, Repr

/-- Embeds `CameraConfig::new_jpeg_ov2640` (camera.rs 33-44). -/
def CameraConfig.new_jpeg_ov2640 : CameraConfig :=
  { xclk_freq := 20000000
    pixel_format := .JPEG
    frame_size := .UXGA
    jpeg_quality := 12
    fb_count := 1
    fb_location := .PSRAM
    grab_mode := .WhenEmpty
    sccb_i2c_port := none }

deriving instance DecidableEq for Except

/-! ## Frame-buffer capture model (src/camera.rs 135-180)

A `camera_fb_t` is modelled by the bytes the driver owns at `buf`, the
recorded length `len`, and the native pixel-format code `format`. The external
driver primitives are parameters of each capture call: `fbOpt` is what
`esp_camera_fb_get()` returns (`none` = null pointer), and the converters
`frame2jpg` / `frame2bmp` return the bytes they allocate, or `none` when they
report failure. Each call also records the ordered trace of driver-visible
events it performs. -/

structure FrameBuffer where
  buf : List Nat
  len : Nat
  format : Nat
deriving DecidableEq, Repr

/-- Driver-visible events of one capture call, in program order:
`acquire ok` is the `esp_camera_fb_get()` call (`ok` = returned non-null),
`convertJpeg q` is a `frame2jpg(fb, q, ...)` call, `convertBmp` a
`frame2bmp` call, `copy` the `slice::from_raw_parts(..).to_vec()` copy out of
driver memory, and `release` an `esp_camera_fb_return(fb)` call. -/
inductive Ev where
  | acquire (ok : Bool)
  | convertJpeg (quality : Nat)
  | convertBmp
  | copy
  | release
deriving DecidableEq, Repr

/-- Reading `len` bytes out of the region at `buf`: the
`slice::from_raw_parts_mut(buffer, buffer_len)` view that `.to_vec()` copies. -/
def readRegion (buf : List Nat) (len : Nat) : List Nat :=
  buf.take len

/-- Embeds `Camera::capture_jpeg` (camera.rs 135-159). Returns the Rust
function's result together with the trace of driver events. On the non-JPEG
branch the converter is invoked as `frame2jpg(fb, 80, &buffer, &buffer_len)`;
on the JPEG branch `buffer`/`buffer_len` alias `fb.buf`/`fb.len`; in both
success cases the region is then copied to a vec and the frame returned. -/
def capture_jpeg (fbOpt : Option FrameBuffer)
    (frame2jpg : FrameBuffer → Nat → Option (List Nat)) :
    Except String (List Nat) × List Ev :=
  match fbOpt with
  | none => (Except.error "Failed to get camera framebuffer", [Ev.acquire false])
  | some fb =>
    if fb.format ≠ pixformat_t_PIXFORMAT_JPEG then
      match frame2jpg fb 80 with
      | none =>
        (Except.error "Unable to convert to JPEG",
         [Ev.acquire true, Ev.convertJpeg 80, Ev.release])
      | some converted =>
        (Except.ok (readRegion converted converted.length),
         [Ev.acquire true, Ev.convertJpeg 80, Ev.copy, Ev.release])
    else
      (Except.ok (readRegion fb.buf fb.len),
       [Ev.acquire true, Ev.copy, Ev.release])

/-- Embeds `Camera::capture_bmp` (camera.rs 161-180): unconditionally invokes
`frame2bmp`, with the same release discipline as `capture_jpeg`. -/
def capture_bmp (fbOpt : Option FrameBuffer)
    (frame2bmp : FrameBuffer → Option (List Nat)) :
    Except String (List Nat) × List Ev :=
  match fbOpt with
  | none => (Except.error "Failed to get camera framebuffer", [Ev.acquire false])
  | some fb =>
    match frame2bmp fb with
    | none =>
      (Except.error "Unable to convert to BMP",
       [Ev.acquire true, Ev.convertBmp, Ev.release])
    | some converted =>
      (Except.ok (readRegion converted converted.length),
       [Ev.acquire true, Ev.convertBmp, Ev.copy, Ev.release])

/-- One capture request of a session's lifetime: a `capture_jpeg` or
`capture_bmp` call together with the driver behaviour it observes. -/
inductive CapReq where
  | jpeg (fbOpt : Option FrameBuffer) (conv : FrameBuffer → Nat → Option (List Nat))
  | bmp (fbOpt : Option FrameBuffer) (conv : FrameBuffer → Option (List Nat))

def CapReq.trace : CapReq → List Ev
  | .jpeg fbOpt conv => (capture_jpeg fbOpt conv).2
  | .bmp fbOpt conv => (capture_bmp fbOpt conv).2

/-- Concatenated driver-event trace of a whole session's capture calls. -/
def sessionTrace (reqs : List CapReq) : List Ev :=
  (reqs.map CapReq.trace).flatten

/-! ## Link supervision model (src/wifi.rs) -/

/-- A scanned access-point announcement: the fields of `AccessPointInfo` that
`connect` reads (`ssid` and `channel`). -/
structure ApInfo where
  ssid : String
  channel : Nat
deriving DecidableEq, Repr

inductive AuthMethod where
  | noAuth
  | wpa2Personal
deriving DecidableEq, Repr

/-- The `ClientConfiguration` fields `connect` sets (wifi.rs 84-90). -/
structure ClientConfiguration where
  ssid : String
  password : String
  channel : Option Nat
  auth_method : AuthMethod
deriving DecidableEq, Repr

/-- Wifi-stack steps `connect` performs, in program order. -/
inductive WStep where
  | wrap
  | setDefault
  | start
  | scan
  | setClient (cfg : ClientConfiguration)
  | associate
  | waitNetif
  | getIp
deriving DecidableEq, Repr

/-- Outcome of one `connect` call: `panicked` models the Rust
`panic!("Missing WiFi name")` abort, `failed` an `Err` propagated by `?`,
`ok` the `Ok(())` return. -/
inductive ConnectOutcome where
  | panicked (msg : String)
  | failed
  | ok
deriving DecidableEq, Repr

/-- Behaviour of the wifi stack during one `connect` call: whether each
fallible step succeeds, and the scan result (`none` = scan erred). -/
structure WifiEnv where
  wrapOk : Bool
  setDefaultOk : Bool
  startOk : Bool
  scanResult : Option (List ApInfo)
  setClientOk : Bool
  connectOk : Bool
  netifUpOk : Bool
  ipInfoOk : Bool
deriving Repr

/-- Embeds `connect` (wifi.rs 39-105): the empty-ssid check-and-abort, the
auth-method choice, then the step sequence wrap, default set_configuration,
start, scan, ssid lookup and channel pinning, client set_configuration,
connect, wait_netif_up, get_ip_info. Returns the outcome with the ordered
trace of steps performed (a failing step is still in the trace: the call
was made and returned an error). -/
def connect (ssid pass : String) (env : WifiEnv) :
    ConnectOutcome × List WStep :=
  if ssid.isEmpty then
    (ConnectOutcome.panicked "Missing WiFi name", [])
  else
    let auth_method :=
      if pass.isEmpty then AuthMethod.noAuth else AuthMethod.wpa2Personal
    if ¬ env.wrapOk then (ConnectOutcome.failed, [WStep.wrap]) else
    if ¬ env.setDefaultOk then
      (ConnectOutcome.failed, [WStep.wrap, WStep.setDefault]) else
    if ¬ env.startOk then
      (ConnectOutcome.failed, [WStep.wrap, WStep.setDefault, WStep.start]) else
    match env.scanResult with
    | none =>
      (ConnectOutcome.failed,
       [WStep.wrap, WStep.setDefault, WStep.start, WStep.scan])
    | some ap_infos =>
      let ours := ap_infos.find? (fun a => a.ssid == ssid)
      let channel := ours.map (fun a => a.channel)
      let cfg : ClientConfiguration :=
        { ssid := ssid, password := pass, channel := channel,
          auth_method := auth_method }
      if ¬ env.setClientOk then
        (ConnectOutcome.failed,
         [WStep.wrap, WStep.setDefault, WStep.start, WStep.scan,
          WStep.setClient cfg]) else
      if ¬ env.connectOk then
        (ConnectOutcome.failed,
         [WStep.wrap, WStep.setDefault, WStep.start, WStep.scan,
          WStep.setClient cfg, WStep.associate]) else
      if ¬ env.netifUpOk then
        (ConnectOutcome.failed,
         [WStep.wrap, WStep.setDefault, WStep.start, WStep.scan,
          WStep.setClient cfg, WStep.associate, WStep.waitNetif]) else
      if ¬ env.ipInfoOk then
        (ConnectOutcome.failed,
         [WStep.wrap, WStep.setDefault, WStep.start, WStep.scan,
          WStep.setClient cfg, WStep.associate, WStep.waitNetif, WStep.getIp]) else
      (ConnectOutcome.ok,
       [WStep.wrap, WStep.setDefault, WStep.start, WStep.scan,
        WStep.setClient cfg, WStep.associate, WStep.waitNetif, WStep.getIp])

/-- Result of `init_wifi` (wifi.rs 11-37) run against a finite script of
connect-attempt outcomes: `earlyError` is the `Err` propagated when
`EspWifi::new` (or the NVS take) fails before the loop; `connected n` means
the retry loop broke after its n-th connect attempt succeeded and the wifi
handle was returned; `stillRetrying` means every scripted attempt failed and
the loop is still running (it has neither returned nor escalated). -/
inductive InitWifiResult where
  | earlyError
  | connected (attempts : Nat)
  | stillRetrying
deriving DecidableEq, Repr

/-- The retry loop of `init_wifi` (wifi.rs 25-34): run `connect` per script
entry (`true` = `is_ok()`), break on the first success; `none` when the
script is exhausted with no success (the loop keeps going). The value counts
connect attempts made, including the successful one. -/
def connectAttempts : List Bool → Option Nat
  | [] => none
  | ok :: rest =>
    if ok then some 1
    else
      match connectAttempts rest with
      | none => none
      | some n => some (n + 1)

/-- Embeds `init_wifi` (wifi.rs 11-37): `newOk` is whether the
`EspWifi::new(...)` construction before the loop succeeds; then the unbounded
retry loop over the scripted connect outcomes. -/
def init_wifi (newOk : Bool) (script : List Bool) : InitWifiResult :=
  if ¬ newOk then InitWifiResult.earlyError
  else
    match connectAttempts script with
    | some n => InitWifiResult.connected n
    | none => InitWifiResult.stillRetrying

/-! ## Helper lemmas -/

theorem capture_jpeg_release_acquire (fbOpt : Option FrameBuffer)
    (conv : FrameBuffer → Nat → Option (List Nat)) :
    ((capture_jpeg fbOpt conv).2).count Ev.release
      = ((capture_jpeg fbOpt conv).2).count (Ev.acquire true) := by
  cases fbOpt with
  | none => simp [capture_jpeg]
  | some fb =>
    by_cases h : fb.format = pixformat_t_PIXFORMAT_JPEG
    · simp [capture_jpeg, h]
    · cases hc : conv fb 80 <;> simp [capture_jpeg, h, hc, List.count_cons]

theorem capture_bmp_release_acquire (fbOpt : Option FrameBuffer)
    (conv : FrameBuffer → Option (List Nat)) :
    ((capture_bmp fbOpt conv).2).count Ev.release
      = ((capture_bmp fbOpt conv).2).count (Ev.acquire true) := by
  cases fbOpt with
  | none => simp [capture_bmp]
  | some fb =>
    cases hc : conv fb <;> simp [capture_bmp, hc, List.count_cons]

theorem capReq_trace_release_acquire (r : CapReq) :
    r.trace.count Ev.release = r.trace.count (Ev.acquire true) := by
  cases r with
  | jpeg fbOpt conv => exact capture_jpeg_release_acquire fbOpt conv
  | bmp fbOpt conv => exact capture_bmp_release_acquire fbOpt conv

/-- C1: every capture call, on every exit path, performs exactly as many
frame releases as successful frame acquisitions, so over a whole session's
lifetime the release count equals the successful-acquire count. -/
theorem C1_release_balance :
    (∀ (fbOpt : Option FrameBuffer) (conv : FrameBuffer → Nat → Option (List Nat)),
      ((capture_jpeg fbOpt conv).2).count Ev.release
        = ((capture_jpeg fbOpt conv).2).count (Ev.acquire true))
    ∧ (∀ (fbOpt : Option FrameBuffer) (conv : FrameBuffer → Option (List Nat)),
      ((capture_bmp fbOpt conv).2).count Ev.release
        = ((capture_bmp fbOpt conv).2).count (Ev.acquire true))
    ∧ (∀ reqs : List CapReq,
      (sessionTrace reqs).count Ev.release
        = (sessionTrace reqs).count (Ev.acquire true)) := by
  refine ⟨capture_jpeg_release_acquire, capture_bmp_release_acquire, ?_⟩
  intro reqs
  induction reqs with
  | nil => rfl
  | cons r rest ih =>
    have hcons : sessionTrace (r :: rest) = r.trace ++ sessionTrace rest := by
      simp [sessionTrace]
    rw [hcons, List.count_append, List.count_append,
      capReq_trace_release_acquire r, ih]

/-- C2: when the acquired frame is already in JPEG format, `capture_jpeg`
takes the pass-through branch: the converter is never invoked and the result
is a copy of exactly the frame's bytes, whose length is the frame's recorded
length. -/
theorem C2_jpeg_passthrough (fb : FrameBuffer)
    (conv : FrameBuffer → Nat → Option (List Nat))
    (hfmt : fb.format = pixformat_t_PIXFORMAT_JPEG)
    (hlen : fb.len = fb.buf.length) :
    (capture_jpeg (some fb) conv).1 = Except.ok fb.buf
    ∧ (capture_jpeg (some fb) conv).2 = [Ev.acquire true, Ev.copy, Ev.release]
    ∧ (∀ q, Ev.convertJpeg q ∉ (capture_jpeg (some fb) conv).2)
    ∧ fb.buf.length = fb.len := by
  have hres : capture_jpeg (some fb) conv
      = (Except.ok (readRegion fb.buf fb.len),
         [Ev.acquire true, Ev.copy, Ev.release]) := by
    simp [capture_jpeg, hfmt]
  have hread : readRegion fb.buf fb.len = fb.buf := by
    simp [readRegion, hlen]
  refine ⟨?_, ?_, ?_, hlen.symm⟩
  · rw [hres, hread]
  · rw [hres]
  · intro q
    rw [hres]
    simp

def convNone : FrameBuffer → Nat → Option (List Nat) := fun _ _ => none

def fbJpeg20000 : FrameBuffer :=
  { buf := List.replicate 20000 255, len := 20000,
    format := pixformat_t_PIXFORMAT_JPEG }

/-- C2 witness: the spec scenario of a 20000-byte frame already in JPEG
format, instantiating `C2_jpeg_passthrough` with its hypotheses discharged. -/
theorem C2_jpeg_passthrough_witness :
    (fbJpeg20000.format = pixformat_t_PIXFORMAT_JPEG
      ∧ fbJpeg20000.len = fbJpeg20000.buf.length)
    ∧ ((capture_jpeg (some fbJpeg20000) convNone).1 = Except.ok fbJpeg20000.buf
      ∧ (capture_jpeg (some fbJpeg20000) convNone).2
          = [Ev.acquire true, Ev.copy, Ev.release]
      ∧ (∀ q, Ev.convertJpeg q ∉ (capture_jpeg (some fbJpeg20000) convNone).2)
      ∧ fbJpeg20000.buf.length = fbJpeg20000.len) :=
  ⟨⟨rfl, (List.length_replicate 20000 255).symm⟩,
   C2_jpeg_passthrough fbJpeg20000 convNone rfl (List.length_replicate 20000 255).symm⟩

/-- C3: whenever `capture_jpeg` or `capture_bmp` returns bytes, the copy out
of driver-owned memory happens strictly before the frame release: the event
trace ends with the copy immediately followed by the release. -/
theorem C3_copy_before_release :
    (∀ (fbOpt : Option FrameBuffer) (conv : FrameBuffer → Nat → Option (List Nat))
        (v : List Nat), (capture_jpeg fbOpt conv).1 = Except.ok v →
      ∃ pre, (capture_jpeg fbOpt conv).2 = pre ++ [Ev.copy, Ev.release])
    ∧ (∀ (fbOpt : Option FrameBuffer) (conv : FrameBuffer → Option (List Nat))
        (v : List Nat), (capture_bmp fbOpt conv).1 = Except.ok v →
      ∃ pre, (capture_bmp fbOpt conv).2 = pre ++ [Ev.copy, Ev.release]) := by
  constructor
  · intro fbOpt conv v hok
    cases fbOpt with
    | none => simp [capture_jpeg] at hok
    | some fb =>
      by_cases h : fb.format = pixformat_t_PIXFORMAT_JPEG
      · exact ⟨[Ev.acquire true], by simp [capture_jpeg, h]⟩
      · cases hc : conv fb 80 with
        | none => simp [capture_jpeg, h, hc] at hok
        | some converted =>
          exact ⟨[Ev.acquire true, Ev.convertJpeg 80], by simp [capture_jpeg, h, hc]⟩
  · intro fbOpt conv v hok
    cases fbOpt with
    | none => simp [capture_bmp] at hok
    | some fb =>
      cases hc : conv fb with
      | none => simp [capture_bmp, hc] at hok
      | some converted =>
        exact ⟨[Ev.acquire true, Ev.convertBmp], by simp [capture_bmp, hc]⟩

def fbSmallJpeg : FrameBuffer :=
  { buf := [255, 216, 3], len := 3, format := pixformat_t_PIXFORMAT_JPEG }

/-- C3 witness: a successful pass-through capture, instantiating
`C3_copy_before_release` with its hypothesis discharged. -/
theorem C3_copy_before_release_witness :
    (capture_jpeg (some fbSmallJpeg) convNone).1 = Except.ok [255, 216, 3]
    ∧ ∃ pre, (capture_jpeg (some fbSmallJpeg) convNone).2
        = pre ++ [Ev.copy, Ev.release] :=
  ⟨rfl, C3_copy_before_release.1 (some fbSmallJpeg) convNone [255, 216, 3] rfl⟩

/-- C4: when a frame was acquired but the converter reports failure, the call
returns the conversion-failed error with the frame released before the
return (release is the last driver event), and — like the no-frame case — the
error is surfaced to the caller as an `Except.error` of the same result type,
with no retry inside the call (exactly one acquisition in the trace). -/
theorem C4_conversion_failure_released :
    (∀ (fb : FrameBuffer) (conv : FrameBuffer → Nat → Option (List Nat)),
      fb.format ≠ pixformat_t_PIXFORMAT_JPEG → conv fb 80 = none →
      capture_jpeg (some fb) conv
        = (Except.error "Unable to convert to JPEG",
           [Ev.acquire true, Ev.convertJpeg 80, Ev.release]))
    ∧ (∀ (fb : FrameBuffer) (conv : FrameBuffer → Option (List Nat)),
      conv fb = none →
      capture_bmp (some fb) conv
        = (Except.error "Unable to convert to BMP",
           [Ev.acquire true, Ev.convertBmp, Ev.release]))
    ∧ (∀ conv : FrameBuffer → Nat → Option (List Nat),
      capture_jpeg none conv
        = (Except.error "Failed to get camera framebuffer", [Ev.acquire false])) := by
  refine ⟨?_, ?_, ?_⟩
  · intro fb conv hfmt hconv
    simp [capture_jpeg, hfmt, hconv]
  · intro fb conv hconv
    simp [capture_bmp, hconv]
  · intro conv
    simp [capture_jpeg]

def fbRgb : FrameBuffer :=
  { buf := [1, 2, 3, 4], len := 4, format := pixformat_t_PIXFORMAT_RGB565 }

/-- C4 witness: a non-JPEG frame with a failing converter, instantiating
`C4_conversion_failure_released` with its hypotheses discharged. -/
theorem C4_conversion_failure_released_witness :
    (fbRgb.format ≠ pixformat_t_PIXFORMAT_JPEG ∧ convNone fbRgb 80 = none)
    ∧ capture_jpeg (some fbRgb) convNone
        = (Except.error "Unable to convert to JPEG",
           [Ev.acquire true, Ev.convertJpeg 80, Ev.release]) :=
  ⟨⟨by decide, rfl⟩,
   C4_conversion_failure_released.1 fbRgb convNone (by decide) rfl⟩

def convEcho : FrameBuffer → Nat → Option (List Nat) := fun fb _ => some fb.buf

def fbGray : FrameBuffer :=
  { buf := [9, 9], len := 2, format := pixformat_t_PIXFORMAT_GRAYSCALE }

/-- C6 counterexample: two different capture requests — different frames and
different converter behaviours — both invoke the converter with quality 80:
`capture_jpeg` passes the hard-coded literal 80 to `frame2jpg`, not a
caller-requested quality, so the quality does not vary with the request. -/
theorem C6_counterexample :
    (capture_jpeg (some fbRgb) convEcho).2
      = [Ev.acquire true, Ev.convertJpeg 80, Ev.copy, Ev.release]
    ∧ (capture_jpeg (some fbGray) convNone).2
      = [Ev.acquire true, Ev.convertJpeg 80, Ev.release] := ⟨rfl, rfl⟩

/-- C6 amended: for every acquired frame whose pixel format is not JPEG,
`capture_jpeg` invokes the converter with the fixed application-level quality
80 — a value in 0–100 on a scale separate from CameraConfig's driver-level
`jpeg_quality` (12 in `new_jpeg_ov2640`) — and with no other quality:
the quality is a hard-coded constant, not a per-request value. -/
theorem C6_fixed_quality_80 (fb : FrameBuffer)
    (conv : FrameBuffer → Nat → Option (List Nat))
    (hfmt : fb.format ≠ pixformat_t_PIXFORMAT_JPEG) :
    (∃ pre post, (capture_jpeg (some fb) conv).2
        = pre ++ Ev.convertJpeg 80 :: post)
    ∧ (∀ q, Ev.convertJpeg q ∈ (capture_jpeg (some fb) conv).2 → q = 80)
    ∧ 80 ≤ 100
    ∧ (80 : Int) ≠ CameraConfig.new_jpeg_ov2640.jpeg_quality := by
  cases hc : conv fb 80 with
  | none =>
    refine ⟨⟨[Ev.acquire true], [Ev.release], by simp [capture_jpeg, hfmt, hc]⟩, ?_, by decide, by decide⟩
    intro q hq
    simp [capture_jpeg, hfmt, hc] at hq
    rcases hq with h | h | h
    all_goals simp_all
  | some converted =>
    refine ⟨⟨[Ev.acquire true], [Ev.copy, Ev.release], by simp [capture_jpeg, hfmt, hc]⟩, ?_, by decide, by decide⟩
    intro q hq
    simp [capture_jpeg, hfmt, hc] at hq
    rcases hq with h | h | h | h
    all_goals simp_all

/-- C6 witness: instantiating `C6_fixed_quality_80` at a grayscale frame with
its hypothesis discharged. -/
theorem C6_fixed_quality_80_witness :
    fbGray.format ≠ pixformat_t_PIXFORMAT_JPEG
    ∧ ((∃ pre post, (capture_jpeg (some fbGray) convEcho).2
          = pre ++ Ev.convertJpeg 80 :: post)
      ∧ (∀ q, Ev.convertJpeg q ∈ (capture_jpeg (some fbGray) convEcho).2 → q = 80)
      ∧ 80 ≤ 100
      ∧ (80 : Int) ≠ CameraConfig.new_jpeg_ov2640.jpeg_quality) :=
  ⟨by decide, C6_fixed_quality_80 fbGray convEcho (by decide)⟩

/-! ## Link supervision theorems -/

theorem connectAttempts_replicate_false (n : Nat) :
    connectAttempts (List.replicate n false) = none := by
  induction n with
  | zero => rfl
  | succ k ih => simp [List.replicate_succ, connectAttempts, ih]

theorem connectAttempts_fail_then_succeed (K : Nat) (rest : List Bool) :
    connectAttempts (List.replicate K false ++ true :: rest) = some (K + 1) := by
  induction K with
  | zero => rfl
  | succ k ih => simp [List.replicate_succ, connectAttempts, ih]

/-- C7: at startup, against a script of K failing connect attempts followed
by a success (and anything after), `init_wifi` makes exactly K+1 connect
attempts and returns the live handle once, at the first success; and when
every scripted attempt fails it never gives up: for any number of failures
the loop is still retrying, having neither returned nor escalated. -/
theorem C7_startup_retry_until_up :
    (∀ (K : Nat) (rest : List Bool),
      init_wifi true (List.replicate K false ++ true :: rest)
        = InitWifiResult.connected (K + 1))
    ∧ (∀ n : Nat,
      init_wifi true (List.replicate n false) = InitWifiResult.stillRetrying) := by
  constructor
  · intro K rest
    simp [init_wifi, connectAttempts_fail_then_succeed]
  · intro n
    simp [init_wifi, connectAttempts_replicate_false]

/-- C5 counterexample: with every scripted attempt failing, after cap+1 = 11
attempts `init_wifi` has not escalated to any fatal condition — it is still
retrying — and when a 12th attempt is scripted to succeed it happily makes
that 12th attempt and returns, so the supervisor does not stop at a cap of
10 retries. -/
theorem C5_counterexample :
    init_wifi true (List.replicate 11 false) = InitWifiResult.stillRetrying
    ∧ init_wifi true (List.replicate 11 false ++ [true])
        = InitWifiResult.connected 12 := ⟨rfl, rfl⟩

/-- C5 amended: the retry loop around the connect sequence has no cap and no
fatal escalation: after any number n of consecutive failed attempts —
including cap+1 = 11 — the supervisor is still retrying, and if attempt n+1
is scripted to succeed it performs it and connects after n+1 attempts, rather
than terminating the process after 11 attempts. -/
theorem C5_no_retry_cap (n : Nat) :
    init_wifi true (List.replicate n false) = InitWifiResult.stillRetrying
    ∧ init_wifi true (List.replicate n false ++ [true])
        = InitWifiResult.connected (n + 1) := by
  constructor
  · simp [init_wifi, connectAttempts_replicate_false]
  · simpa using (by simp [init_wifi, connectAttempts_fail_then_succeed] :
      init_wifi true (List.replicate n false ++ true :: ([] : List Bool))
        = InitWifiResult.connected (n + 1))

/-- C8: with an empty network name, every call of `connect` aborts fatally
with the missing-name message before performing any wifi-stack step: no
start, scan, association or lease step appears in the trace. -/
theorem C8_empty_ssid_fatal (pass : String) (env : WifiEnv) :
    connect "" pass env = (ConnectOutcome.panicked "Missing WiFi name", []) := rfl

/-- The client configuration `connect` builds after a successful scan
(wifi.rs 70-90): the channel of the first scanned announcement whose ssid
matches, if any, together with the credentials and auth method. -/
def builtClientConfig (ssid pass : String) (aps : List ApInfo) :
    ClientConfiguration :=
  { ssid := ssid, password := pass,
    channel := (aps.find? (fun a => a.ssid == ssid)).map (fun a => a.channel),
    auth_method := if pass.isEmpty then AuthMethod.noAuth else AuthMethod.wpa2Personal }

theorem connect_ok_eq (ssid pass : String) (env : WifiEnv) (aps : List ApInfo)
    (hscan : env.scanResult = some aps)
    (hok : (connect ssid pass env).1 = ConnectOutcome.ok) :
    connect ssid pass env
      = (ConnectOutcome.ok,
         [WStep.wrap, WStep.setDefault, WStep.start, WStep.scan,
          WStep.setClient (builtClientConfig ssid pass aps),
          WStep.associate, WStep.waitNetif, WStep.getIp]) := by
  by_cases hemp : ssid.isEmpty
  · exfalso; simp [connect, hemp] at hok
  · have hw : env.wrapOk := by
      by_contra h; simp [connect, hemp, h] at hok
    have hsd : env.setDefaultOk := by
      by_contra h; simp [connect, hemp, hw, h] at hok
    have hst : env.startOk := by
      by_contra h; simp [connect, hemp, hw, hsd, h] at hok
    have hscl : env.setClientOk := by
      by_contra h; simp [connect, hemp, hw, hsd, hst, hscan, h] at hok
    have hco : env.connectOk := by
      by_contra h; simp [connect, hemp, hw, hsd, hst, hscan, hscl, h] at hok
    have hnu : env.netifUpOk := by
      by_contra h; simp [connect, hemp, hw, hsd, hst, hscan, hscl, hco, h] at hok
    have hip : env.ipInfoOk := by
      by_contra h; simp [connect, hemp, hw, hsd, hst, hscan, hscl, hco, hnu, h] at hok
    simp [connect, builtClientConfig, hemp, hw, hsd, hst, hscan, hscl, hco, hnu, hip]

/-- C9: in every successful `connect` run, the client configuration used for
the association step carries, as channel hint, the channel of a scanned
access point whose name equals the configured ssid when one is visible, and
no channel hint at all when none matches. -/
theorem C9_channel_hint (ssid pass : String) (env : WifiEnv) (aps : List ApInfo)
    (hscan : env.scanResult = some aps)
    (hok : (connect ssid pass env).1 = ConnectOutcome.ok) :
    ∃ cfg, WStep.setClient cfg ∈ (connect ssid pass env).2
      ∧ ((∃ ap ∈ aps, ap.ssid = ssid) →
            ∃ ap ∈ aps, ap.ssid = ssid ∧ cfg.channel = some ap.channel)
      ∧ ((∀ ap ∈ aps, ap.ssid ≠ ssid) → cfg.channel = none) := by
  have hconn := connect_ok_eq ssid pass env aps hscan hok
  refine ⟨builtClientConfig ssid pass aps, ?_, ?_, ?_⟩
  · rw [hconn]; simp
  · intro _
    cases hfind : aps.find? (fun a => a.ssid == ssid) with
    | none =>
      rename_i hex
      exfalso
      obtain ⟨ap, hmem, heq⟩ := hex
      have hne := List.find?_eq_none.mp hfind ap hmem
      simp [heq] at hne
    | some a =>
      have hpa := List.find?_some hfind
      have hmem := List.mem_of_find?_eq_some hfind
      simp only [beq_iff_eq] at hpa
      exact ⟨a, hmem, hpa, by simp [builtClientConfig, hfind]⟩
  · intro hall
    cases hfind : aps.find? (fun a => a.ssid == ssid) with
    | none => simp [builtClientConfig, hfind]
    | some a =>
      have hpa := List.find?_some hfind
      have hmem := List.mem_of_find?_eq_some hfind
      simp only [beq_iff_eq] at hpa
      exact absurd hpa (hall a hmem)

def envAllOk : WifiEnv :=
  { wrapOk := true, setDefaultOk := true, startOk := true,
    scanResult := some [{ ssid := "other", channel := 1 },
                        { ssid := "home", channel := 6 }],
    setClientOk := true, connectOk := true, netifUpOk := true, ipInfoOk := true }

/-- C9 witness: a successful run against a scan listing the configured
network on channel 6, instantiating `C9_channel_hint` with its hypotheses
discharged. -/
theorem C9_channel_hint_witness :
    (envAllOk.scanResult = some [{ ssid := "other", channel := 1 },
                                 { ssid := "home", channel := 6 }]
      ∧ (connect "home" "pw" envAllOk).1 = ConnectOutcome.ok)
    ∧ ∃ cfg, WStep.setClient cfg ∈ (connect "home" "pw" envAllOk).2
      ∧ ((∃ ap ∈ [({ ssid := "other", channel := 1 } : ApInfo),
                  { ssid := "home", channel := 6 }], ap.ssid = "home") →
            ∃ ap ∈ [({ ssid := "other", channel := 1 } : ApInfo),
                    { ssid := "home", channel := 6 }],
              ap.ssid = "home" ∧ cfg.channel = some ap.channel)
      ∧ ((∀ ap ∈ [({ ssid := "other", channel := 1 } : ApInfo),
                  { ssid := "home", channel := 6 }], ap.ssid ≠ "home") →
            cfg.channel = none) :=
  ⟨⟨rfl, rfl⟩, C9_channel_hint "home" "pw" envAllOk _ rfl rfl⟩

/-! ## Enum marshalling theorems -/

/-- C10: each closed enumerated configuration type round-trips through its
native integer code — converting to the code and back yields the original
value — and converting an integer that is no variant's code returns the typed
conversion error instead of a value. -/
theorem C10_enum_roundtrip :
    (∀ pf : PixelFormat, PixelFormat.tryFromU32 pf.toU32 = Except.ok pf)
    ∧ (∀ fs : FrameSize, FrameSize.tryFromU32 fs.toU32 = Except.ok fs)
    ∧ (∀ gm : FbGrabMode, FbGrabMode.tryFromU32 gm.toU32 = Except.ok gm)
    ∧ (∀ n : Nat, (∀ pf : PixelFormat, pf.toU32 ≠ n) →
        PixelFormat.tryFromU32 n = Except.error "Unable to convert to pixel format")
    ∧ (∀ n : Nat, (∀ fs : FrameSize, fs.toU32 ≠ n) →
        FrameSize.tryFromU32 n = Except.error "Unable to convert to frame size")
    ∧ (∀ n : Nat, (∀ gm : FbGrabMode, gm.toU32 ≠ n) →
        FbGrabMode.tryFromU32 n = Except.error "Unable to convert to grab mode") := by
  refine ⟨?_, ?_, ?_, ?_, ?_, ?_⟩
  · intro pf; cases pf with
    | _ => rfl
  · intro fs; cases fs with
    | _ => rfl
  · intro gm; cases gm with
    | _ => rfl
  · intro n h
    by_cases hlt : n < 9
    · interval_cases n
      all_goals (revert h; decide)
    · obtain ⟨k, rfl⟩ : ∃ k, n = k + 9 := ⟨n - 9, by omega⟩
      rfl
  · intro n h
    by_cases hlt : n < 23
    · interval_cases n
      all_goals (revert h; decide)
    · obtain ⟨k, rfl⟩ : ∃ k, n = k + 23 := ⟨n - 23, by omega⟩
      rfl
  · intro n h
    by_cases hlt : n < 2
    · interval_cases n
      all_goals (revert h; decide)
    · obtain ⟨k, rfl⟩ : ∃ k, n = k + 2 := ⟨n - 2, by omega⟩
      rfl

/-- C10 witness: the round-trip at concrete values and the typed error on
the concrete unknown codes 9, 23 and 2, instantiating `C10_enum_roundtrip`
with its hypotheses discharged. -/
theorem C10_enum_roundtrip_witness :
    ((∀ pf : PixelFormat, pf.toU32 ≠ 9) ∧ (∀ fs : FrameSize, fs.toU32 ≠ 23)
      ∧ (∀ gm : FbGrabMode, gm.toU32 ≠ 2))
    ∧ PixelFormat.tryFromU32 (PixelFormat.JPEG).toU32 = Except.ok PixelFormat.JPEG
    ∧ FrameSize.tryFromU32 (FrameSize.UXGA).toU32 = Except.ok FrameSize.UXGA
    ∧ FbGrabMode.tryFromU32 (FbGrabMode.Latest).toU32 = Except.ok FbGrabMode.Latest
    ∧ PixelFormat.tryFromU32 9 = Except.error "Unable to convert to pixel format"
    ∧ FrameSize.tryFromU32 23 = Except.error "Unable to convert to frame size"
    ∧ FbGrabMode.tryFromU32 2 = Except.error "Unable to convert to grab mode" :=
  ⟨⟨by decide, by decide, by decide⟩,
   C10_enum_roundtrip.1 PixelFormat.JPEG,
   C10_enum_roundtrip.2.1 FrameSize.UXGA,
   C10_enum_roundtrip.2.2.1 FbGrabMode.Latest,
   C10_enum_roundtrip.2.2.2.1 9 (by decide),
   C10_enum_roundtrip.2.2.2.2.1 23 (by decide),
   C10_enum_roundtrip.2.2.2.2.2 2 (by decide)⟩

end Esp32Cam
